import Mathlib

/-!
Shallow embedding of `esm/esmfold/v1/pretrained.py`: the checkpoint loader
`_load_model` and the named variant selectors `esmfold_v0` / `esmfold_v1`.

Modelling conventions:
- weight tensors and model configurations are external, opaque-to-the-loader
  data; they are represented by natural numbers, since the loader never
  inspects them;
- the deserialized checkpoint (`torch.load` result) is a top-level mapping
  with two relevant fields, each possibly absent (a Python dict subscript on
  an absent field raises `KeyError`);
- external collaborators (`torch.load` itself, and the parameter set created
  by the `ESMFold` constructor) are fields of an environment record `Env`,
  so every theorem quantifies over their behaviour;
- side effects are recorded in an event trace: which file/device was passed
  to `torch.load`, and whether `load_state_dict` was invoked;
- Python exceptions become `Except` errors: `KeyError`, `RuntimeError`,
  `AttributeError`.
-/

namespace EsmPretrained

/-- A weight tensor, opaque to the loader; identity only. -/
abbrev Tensor := Nat

/-- A model configuration object (`model_data["cfg"]["model"]`), opaque to
the loader. -/
abbrev ModelCfg := Nat

/-- A state dict: a finite mapping from parameter names to tensors, in
insertion order (Python dicts preserve insertion order and have unique
keys). -/
abbrev StateDict := List (String × Tensor)

/-- The value stored under the top-level "cfg" field of a checkpoint: a
mapping that may or may not have a nested "model" entry. -/
structure CfgEntry where
  model : Option ModelCfg
deriving DecidableEq

/-- The raw deserialized checkpoint, as returned by `torch.load`: a mapping
whose relevant top-level fields are "cfg" and "model", each possibly
absent. -/
structure CheckpointData where
  cfg : Option CfgEntry
  model : Option StateDict
deriving DecidableEq

/-- The `ESMFold` model object: its construction argument and its current
parameter mapping (`state_dict`). The network internals are out of scope;
the loader only ever looks at the parameter mapping. -/
structure ESMFold where
  esmfold_config : ModelCfg
  params : StateDict
deriving DecidableEq

/-- The `state_dict()` method: the current parameter mapping. -/
def ESMFold.state_dict (m : ESMFold) : StateDict := m.params

/-- A `pathlib.Path`, modelled as its (already normalized) components. -/
structure PyPath where
  components : List String
deriving DecidableEq

/-- The `as_posix()` method: components joined by "/". -/
def PyPath.as_posix (p : PyPath) : String :=
  String.intercalate "/" p.components

/-- The result of `str(path)`, which for a POSIX path coincides with
`as_posix()`. -/
def PyPath.toStr (p : PyPath) : String := p.as_posix

/-- The final component of the path (its `name` in pathlib terms). -/
def PyPath.finalComponent (p : PyPath) : String :=
  (p.components.getLast?).getD ""

/-- Python exceptions the embedded code can raise. -/
inductive PyError where
  | keyError (key : String)
  | runtimeError (msg : String)
  | attributeError (attr : String)
deriving DecidableEq

/-- Side effects recorded during a call. -/
inductive Event where
  | torchLoad (path : String) (device : String)
  | loadStateDictCall (state : StateDict) (strict : Bool)
deriving DecidableEq

/-- Recognizes a `load_state_dict` invocation in the trace. -/
def Event.isLoadStateDictCall : Event → Bool
  | .loadStateDictCall _ _ => true
  | _ => false

/-- Recognizes a `torch.load` invocation in the trace. -/
def Event.isTorchLoad : Event → Bool
  | .torchLoad _ _ => true
  | _ => false

/-- The external collaborators: `torch.load` (given the path string and the
`map_location` device string, produce the deserialized checkpoint) and the
`ESMFold` constructor's parameter initialization (given the configuration,
produce the freshly constructed parameter mapping). -/
structure Env where
  torch_load : String → String → CheckpointData
  esmfold_init : ModelCfg → StateDict

/-- The key list of a state dict (`.keys()`), in order. -/
def sdKeys (sd : StateDict) : List String := sd.map Prod.fst

/-- Dict lookup on a state dict. -/
def lookupSD (sd : StateDict) (k : String) : Option Tensor :=
  (sd.find? (fun kv => kv.fst == k)).map Prod.snd

/-- Python `str.startswith`: prefix test on the character sequences. -/
def startswith (k pre : String) : Bool := pre.data.isPrefixOf k.data

/-- Helper for substring containment on character lists. -/
def listContainsSub (pat : List Char) : List Char → Bool
  | [] => pat.isEmpty
  | c :: rest => pat.isPrefixOf (c :: rest) || listContainsSub pat rest

/-- Python `pat in s` on strings: substring containment. -/
def pyIn (pat s : String) : Bool := listContainsSub pat.data s.data

/-- The loop of `_load_model` collecting missing keys that do not start
with "esm.": iterate over the set difference `expected_keys - found_keys`
and keep the keys for which `missing_key.startswith("esm.")` is false. -/
def missing_essential_keys (expected_keys found_keys : List String) : List String :=
  (expected_keys.filter (fun k => !(found_keys.contains k))).filter
    (fun k => !(startswith k "esm."))

/-- `model.load_state_dict(model_state, strict=False)`: copy into the model
every checkpoint tensor whose name the model expects; names the model does
not expect are ignored, and expected names absent from the checkpoint keep
their current tensor (that is the `strict=False` behaviour). -/
def load_state_dict (m : ESMFold) (model_state : StateDict) : ESMFold :=
  { m with params := m.params.map (fun kv =>
      match lookupSD model_state kv.fst with
      | some w => (kv.fst, w)
      | none => kv) }

/-- The error message built by `_load_model` for missing essential keys. -/
def missingKeysMsg (missing : List String) : String :=
  "Keys \x27" ++ String.intercalate ", " missing ++ "\x27 are missing."

/-- Embedding of `_load_model`: deserialize the checkpoint at the path onto
the device "cuda:0", read `model_data["cfg"]["model"]` and
`model_data["model"]` (each subscript raising `KeyError` when the field is
absent), construct the model from the configuration, collect the expected
keys absent from the checkpoint that do not start with "esm.", raise
`RuntimeError` listing them when there are any, and otherwise load the
weights with `strict=False` and return the model. Returns the outcome
paired with the trace of external effects. -/
def _load_model (env : Env) (model_path : PyPath) :
    Except PyError ESMFold × List Event :=
  let model_data := env.torch_load model_path.toStr "cuda:0"
  let ev : List Event := [Event.torchLoad model_path.toStr "cuda:0"]
  match model_data.cfg with
  | none => (Except.error (PyError.keyError "cfg"), ev)
  | some cfgEntry =>
    match cfgEntry.model with
    | none => (Except.error (PyError.keyError "model"), ev)
    | some cfg =>
      match model_data.model with
      | none => (Except.error (PyError.keyError "model"), ev)
      | some model_state =>
        let model : ESMFold := { esmfold_config := cfg, params := env.esmfold_init cfg }
        let expected_keys := sdKeys model.state_dict
        let found_keys := sdKeys model_state
        let missing := missing_essential_keys expected_keys found_keys
        if missing.isEmpty then
          (Except.ok (load_state_dict model model_state),
           ev ++ [Event.loadStateDictCall model_state false])
        else
          (Except.error (PyError.runtimeError (missingKeysMsg missing)), ev)

/-- The argument a caller passes to a selector: the annotation says `str`,
but the body calls the `Path`-only method `as_posix`, so both shapes are
modelled. -/
inductive PathArg where
  | ofPath (p : PyPath)
  | ofStr (s : String)
deriving DecidableEq

/-- Embedding of `esmfold_v0`: on a `Path` argument, load the model when
"esmfold_3B_v0" occurs in `path.as_posix()`, else return `None`; on a plain
string argument the attribute lookup `as_posix` fails. -/
def esmfold_v0 (env : Env) (path : PathArg) :
    Except PyError (Option ESMFold) × List Event :=
  match path with
  | .ofStr _ => (Except.error (PyError.attributeError "as_posix"), [])
  | .ofPath p =>
    if pyIn "esmfold_3B_v0" p.as_posix then
      let r := _load_model env p
      (r.fst.map some, r.snd)
    else
      (Except.ok none, [])

/-- Embedding of `esmfold_v1`: same dispatch with "esmfold_3B_v1". -/
def esmfold_v1 (env : Env) (path : PathArg) :
    Except PyError (Option ESMFold) × List Event :=
  match path with
  | .ofStr _ => (Except.error (PyError.attributeError "as_posix"), [])
  | .ofPath p =>
    if pyIn "esmfold_3B_v1" p.as_posix then
      let r := _load_model env p
      (r.fst.map some, r.snd)
    else
      (Except.ok none, [])

/-! Helper lemmas about the key-difference computation and the loader. -/

lemma mem_missing_essential_keys {e f : List String} {k : String} :
    k ∈ missing_essential_keys e f ↔
      k ∈ e ∧ k ∉ f ∧ startswith k "esm." = false := by
  simp [missing_essential_keys, List.mem_filter, and_assoc]
  exact fun _ => and_comm

lemma missing_essential_keys_eq_nil_iff {e f : List String} :
    missing_essential_keys e f = [] ↔
      ∀ k, k ∈ e → k ∉ f → startswith k "esm." = true := by
  constructor
  · intro h k h1 h2
    cases hs : startswith k "esm." with
    | true => rfl
    | false =>
      have : k ∈ missing_essential_keys e f :=
        mem_missing_essential_keys.2 ⟨h1, h2, hs⟩
      simp [h] at this
  · intro h
    rw [List.eq_nil_iff_forall_not_mem]
    intro k hk
    rcases mem_missing_essential_keys.1 hk with ⟨h1, h2, h3⟩
    rw [h k h1 h2] at h3
    cases h3

lemma load_model_unfold (env : Env) (p : PyPath) (ce : CfgEntry)
    (cfg : ModelCfg) (st : StateDict)
    (h1 : (env.torch_load p.toStr "cuda:0").cfg = some ce)
    (h2 : ce.model = some cfg)
    (h3 : (env.torch_load p.toStr "cuda:0").model = some st) :
    _load_model env p =
      if (missing_essential_keys (sdKeys (env.esmfold_init cfg)) (sdKeys st)).isEmpty then
        (Except.ok (load_state_dict
            { esmfold_config := cfg, params := env.esmfold_init cfg } st),
         [Event.torchLoad p.toStr "cuda:0", Event.loadStateDictCall st false])
      else
        (Except.error (PyError.runtimeError (missingKeysMsg
            (missing_essential_keys (sdKeys (env.esmfold_init cfg)) (sdKeys st)))),
         [Event.torchLoad p.toStr "cuda:0"]) := by
  simp only [_load_model, h1, h2, h3, ESMFold.state_dict]
  split <;> rfl

lemma load_model_cases (env : Env) (p : PyPath) :
    (∃ m st, _load_model env p =
      (Except.ok m, [Event.torchLoad p.toStr "cuda:0",
                     Event.loadStateDictCall st false])) ∨
    (∃ e, _load_model env p =
      (Except.error e, [Event.torchLoad p.toStr "cuda:0"])) := by
  simp only [_load_model]
  cases (env.torch_load p.toStr "cuda:0").cfg with
  | none => exact Or.inr ⟨_, rfl⟩
  | some ce =>
    dsimp only
    cases ce.model with
    | none => exact Or.inr ⟨_, rfl⟩
    | some cfg =>
      dsimp only
      cases (env.torch_load p.toStr "cuda:0").model with
      | none => exact Or.inr ⟨_, rfl⟩
      | some st =>
        dsimp only [ESMFold.state_dict]
        by_cases h : (missing_essential_keys (sdKeys (env.esmfold_init cfg))
            (sdKeys st)).isEmpty
        · rw [if_pos h]
          exact Or.inl ⟨_, st, rfl⟩
        · rw [if_neg h]
          exact Or.inr ⟨_, rfl⟩

lemma sdKeys_load_state_dict (m : ESMFold) (st : StateDict) :
    sdKeys (load_state_dict m st).params = sdKeys m.params := by
  simp only [load_state_dict, sdKeys, List.map_map]
  apply List.map_congr_left
  intro kv _
  cases h : lookupSD st kv.fst <;> simp [h]

/-! Concrete environments and paths used to instantiate the theorems. -/

/-- A fixed single-component path. -/
def path0 : PyPath := { components := ["m.pt"] }

/-- A checkpoint with both top-level fields present and an empty state
dict. -/
def cpEmptyState : CheckpointData :=
  { cfg := some { model := some 0 }, model := some [] }

/-- Environment: complete checkpoint with an empty state dict; the model
expects one essential parameter "w". -/
def envMissingW : Env :=
  { torch_load := fun _ _ => cpEmptyState,
    esmfold_init := fun _ => [("w", 1)] }

/-- Environment: complete checkpoint with an empty state dict; the model
expects no parameters, so loading always succeeds. -/
def envTrivial : Env :=
  { torch_load := fun _ _ => cpEmptyState,
    esmfold_init := fun _ => [] }

/-- Environment: the checkpoint holds "b" plus an unexpected extra key; the
model expects the optional "esm.a" and the essential "b". -/
def envOptApart : Env :=
  { torch_load := fun _ _ =>
      { cfg := some { model := some 0 }, model := some [("b", 5), ("extra", 7)] },
    esmfold_init := fun _ => [("esm.a", 0), ("b", 1)] }

/-- Environment: complete checkpoint with an empty state dict; the model
expects "trunk.esm.weight", which contains "esm." away from position 0. -/
def envTrunk : Env :=
  { torch_load := fun _ _ => cpEmptyState,
    esmfold_init := fun _ => [("trunk.esm.weight", 0)] }

/-- Environment: the checkpoint lacks the top-level "cfg" field. -/
def envNoCfg : Env :=
  { torch_load := fun _ _ => { cfg := none, model := some [] },
    esmfold_init := fun _ => [] }

/-- A path whose directory component contains the v0 identifier but whose
final component does not. -/
def pathDirMatch : PyPath := { components := ["esmfold_3B_v0", "x.pt"] }

/-! Claim theorems. -/

/-- C1: with both top-level checkpoint fields present, `_load_model` raises
the RuntimeError configuration error exactly when some expected parameter
name absent from the checkpoint does not start with "esm."; when every
missing name starts with "esm." it returns the constructed model without
raising. -/
theorem C1_error_iff_missing_essential (env : Env) (p : PyPath)
    (ce : CfgEntry) (cfg : ModelCfg) (st : StateDict)
    (h1 : (env.torch_load p.toStr "cuda:0").cfg = some ce)
    (h2 : ce.model = some cfg)
    (h3 : (env.torch_load p.toStr "cuda:0").model = some st) :
    ((∃ msg, (_load_model env p).fst = Except.error (PyError.runtimeError msg)) ↔
      (∃ k, k ∈ sdKeys (env.esmfold_init cfg) ∧ k ∉ sdKeys st ∧
        startswith k "esm." = false)) ∧
    ((∀ k, k ∈ sdKeys (env.esmfold_init cfg) → k ∉ sdKeys st →
        startswith k "esm." = true) →
      (_load_model env p).fst = Except.ok (load_state_dict
        { esmfold_config := cfg, params := env.esmfold_init cfg } st)) := by
  rw [load_model_unfold env p ce cfg st h1 h2 h3]
  by_cases h : (missing_essential_keys (sdKeys (env.esmfold_init cfg))
      (sdKeys st)).isEmpty
  · rw [if_pos h]
    have hnil : missing_essential_keys (sdKeys (env.esmfold_init cfg))
        (sdKeys st) = [] := List.isEmpty_iff.1 h
    refine ⟨⟨?_, ?_⟩, fun _ => rfl⟩
    · rintro ⟨msg, hmsg⟩
      simp at hmsg
    · rintro ⟨k, hk1, hk2, hk3⟩
      have hk : k ∈ missing_essential_keys (sdKeys (env.esmfold_init cfg))
          (sdKeys st) := mem_missing_essential_keys.2 ⟨hk1, hk2, hk3⟩
      rw [hnil] at hk
      cases hk
  · rw [if_neg h]
    have hne : missing_essential_keys (sdKeys (env.esmfold_init cfg))
        (sdKeys st) ≠ [] := fun hq => h (List.isEmpty_iff.2 hq)
    refine ⟨⟨?_, fun _ => ⟨_, rfl⟩⟩, ?_⟩
    · intro _
      rcases List.exists_mem_of_ne_nil _ hne with ⟨k, hk⟩
      rcases mem_missing_essential_keys.1 hk with ⟨a, b, c⟩
      exact ⟨k, a, b, c⟩
    · intro hall
      exact absurd (missing_essential_keys_eq_nil_iff.2 hall) hne

/-- C1 witness: a concrete checkpoint missing the essential key "w" makes
`_load_model` raise the RuntimeError. -/
theorem C1_witness :
    ∃ msg, (_load_model envMissingW path0).fst =
      Except.error (PyError.runtimeError msg) :=
  (C1_error_iff_missing_essential envMissingW path0 { model := some 0 } 0 []
    rfl rfl rfl).1.2 ⟨"w", by decide, by decide, by decide⟩

/-- C2 counterexample: for the path "esmfold_3B_v0/x.pt" the final
component "x.pt" does not contain the v0 identifier, yet `esmfold_v0`
returns a loaded model rather than nothing, because the code matches the
identifier against the full POSIX string. -/
theorem C2_counterexample :
    pyIn "esmfold_3B_v0" pathDirMatch.finalComponent = false ∧
    (esmfold_v0 envTrivial (PathArg.ofPath pathDirMatch)).fst =
      Except.ok (some { esmfold_config := 0, params := [] }) ∧
    (esmfold_v0 envTrivial (PathArg.ofPath pathDirMatch)).fst ≠
      Except.ok none := by
  refine ⟨rfl, rfl, ?_⟩
  intro h
  rw [show (esmfold_v0 envTrivial (PathArg.ofPath pathDirMatch)).fst =
      Except.ok (some { esmfold_config := 0, params := [] }) from rfl] at h
  simp at h

/-- C2 (amended): each selector matches its identifier against the FULL
POSIX string of the path, not only its final component: it returns the
checkpoint-loading outcome when the identifier occurs anywhere in
`as_posix()`, and returns nothing otherwise. -/
theorem C2_full_posix_dispatch (env : Env) (p : PyPath) :
    ((esmfold_v0 env (PathArg.ofPath p)).fst =
      if pyIn "esmfold_3B_v0" p.as_posix then (_load_model env p).fst.map some
      else Except.ok none) ∧
    ((esmfold_v1 env (PathArg.ofPath p)).fst =
      if pyIn "esmfold_3B_v1" p.as_posix then (_load_model env p).fst.map some
      else Except.ok none) := by
  constructor <;> (simp only [esmfold_v0, esmfold_v1]; split <;> rfl)

/-- C3: when every expected key absent from the checkpoint starts with
"esm.", `_load_model` succeeds and returns the model. -/
theorem C3_only_optional_missing_succeeds (env : Env) (p : PyPath)
    (ce : CfgEntry) (cfg : ModelCfg) (st : StateDict)
    (h1 : (env.torch_load p.toStr "cuda:0").cfg = some ce)
    (h2 : ce.model = some cfg)
    (h3 : (env.torch_load p.toStr "cuda:0").model = some st)
    (hopt : ∀ k, k ∈ sdKeys (env.esmfold_init cfg) → k ∉ sdKeys st →
      startswith k "esm." = true) :
    (_load_model env p).fst = Except.ok (load_state_dict
      { esmfold_config := cfg, params := env.esmfold_init cfg } st) := by
  rw [load_model_unfold env p ce cfg st h1 h2 h3,
    if_pos (List.isEmpty_iff.2 (missing_essential_keys_eq_nil_iff.2 hopt))]

/-- C3 witness: a concrete checkpoint missing only "esm.a" loads
successfully. -/
theorem C3_witness :
    (_load_model envOptApart path0).fst = Except.ok (load_state_dict
      { esmfold_config := 0, params := [("esm.a", 0), ("b", 1)] }
      [("b", 5), ("extra", 7)]) :=
  C3_only_optional_missing_succeeds envOptApart path0 { model := some 0 } 0
    [("b", 5), ("extra", 7)] rfl rfl rfl (by decide)

/-- C4: on the error path the RuntimeError message is the fixed template
joining exactly the keys that are expected, absent from the checkpoint,
and not "esm."-prefixed; no present or optional key enters the joined
list. -/
theorem C4_error_names_exactly_missing (env : Env) (p : PyPath)
    (ce : CfgEntry) (cfg : ModelCfg) (st : StateDict)
    (h1 : (env.torch_load p.toStr "cuda:0").cfg = some ce)
    (h2 : ce.model = some cfg)
    (h3 : (env.torch_load p.toStr "cuda:0").model = some st)
    (hne : missing_essential_keys (sdKeys (env.esmfold_init cfg))
      (sdKeys st) ≠ []) :
    (_load_model env p).fst = Except.error (PyError.runtimeError (missingKeysMsg
      (missing_essential_keys (sdKeys (env.esmfold_init cfg)) (sdKeys st)))) ∧
    (∀ k, k ∈ missing_essential_keys (sdKeys (env.esmfold_init cfg))
        (sdKeys st) ↔
      (k ∈ sdKeys (env.esmfold_init cfg) ∧ k ∉ sdKeys st ∧
        startswith k "esm." = false)) := by
  constructor
  · rw [load_model_unfold env p ce cfg st h1 h2 h3,
      if_neg (fun hq => hne (List.isEmpty_iff.1 hq))]
  · intro k
    exact mem_missing_essential_keys

/-- C4 witness: the concrete checkpoint missing the essential key "w"
produces exactly the message naming "w". -/
theorem C4_witness :
    (_load_model envMissingW path0).fst =
      Except.error (PyError.runtimeError "Keys \x27w\x27 are missing.") :=
  (C4_error_names_exactly_missing envMissingW path0 { model := some 0 } 0 []
    rfl rfl rfl (by decide)).1

/-- C5: when no essential key is missing, loading is permissive: extra
checkpoint keys and missing optional keys cause no error, the model is
returned, and its parameter names are exactly the expected ones (extra
checkpoint keys never enter the model). -/
theorem C5_permissive_load (env : Env) (p : PyPath)
    (ce : CfgEntry) (cfg : ModelCfg) (st : StateDict)
    (h1 : (env.torch_load p.toStr "cuda:0").cfg = some ce)
    (h2 : ce.model = some cfg)
    (h3 : (env.torch_load p.toStr "cuda:0").model = some st)
    (hreq : missing_essential_keys (sdKeys (env.esmfold_init cfg))
      (sdKeys st) = []) :
    (_load_model env p).fst = Except.ok (load_state_dict
      { esmfold_config := cfg, params := env.esmfold_init cfg } st) ∧
    sdKeys (load_state_dict
      { esmfold_config := cfg, params := env.esmfold_init cfg } st).params =
      sdKeys (env.esmfold_init cfg) := by
  refine ⟨?_, sdKeys_load_state_dict _ _⟩
  rw [load_model_unfold env p ce cfg st h1 h2 h3,
    if_pos (List.isEmpty_iff.2 hreq)]

/-- C5 witness: the concrete checkpoint with an extra key "extra" and the
model expecting the optional "esm.a" and the essential "b" loads without
error and keeps exactly the expected parameter names. -/
theorem C5_witness :
    (_load_model envOptApart path0).fst = Except.ok (load_state_dict
      { esmfold_config := 0, params := [("esm.a", 0), ("b", 1)] }
      [("b", 5), ("extra", 7)]) ∧
    sdKeys (load_state_dict
      { esmfold_config := 0, params := [("esm.a", 0), ("b", 1)] }
      [("b", 5), ("extra", 7)]).params = sdKeys [("esm.a", 0), ("b", 1)] :=
  C5_permissive_load envOptApart path0 { model := some 0 } 0
    [("b", 5), ("extra", 7)] rfl rfl rfl (by decide)

/-- C6: whenever `_load_model` results in an error — the RuntimeError
included — `load_state_dict` was never invoked on that call: the event
trace contains no weight-loading call, so no checkpoint weight was copied
into the model. -/
theorem C6_no_weight_load_on_error (env : Env) (p : PyPath) (e : PyError)
    (h : (_load_model env p).fst = Except.error e) :
    ((_load_model env p).snd).filter Event.isLoadStateDictCall = [] := by
  rcases load_model_cases env p with ⟨m, st, hq⟩ | ⟨e2, hq⟩
  · rw [hq] at h
    simp at h
  · rw [hq]
    rfl

/-- C6 witness: on the checkpoint lacking "cfg" the call errors and the
trace holds no weight-loading call. -/
theorem C6_witness :
    ((_load_model envNoCfg path0).snd).filter Event.isLoadStateDictCall = [] :=
  C6_no_weight_load_on_error envNoCfg path0 (PyError.keyError "cfg") rfl

/-- C7: every call to `_load_model` performs exactly one deserialization,
passing the string form of the given path and the fixed device string
"cuda:0"; the device does not depend on the environment, the path, or the
checkpoint contents. -/
theorem C7_fixed_device (env : Env) (p : PyPath) :
    ((_load_model env p).snd).filter Event.isTorchLoad =
      [Event.torchLoad p.toStr "cuda:0"] := by
  rcases load_model_cases env p with ⟨m, st, hq⟩ | ⟨e, hq⟩ <;> rw [hq] <;> rfl

/-- C8: a missing key counts as optional only via the prefix test at
position 0: a missing expected key containing "esm." at some other
position, so that the prefix test fails, still triggers the RuntimeError
configuration error. -/
theorem C8_inner_esm_still_essential (env : Env) (p : PyPath)
    (ce : CfgEntry) (cfg : ModelCfg) (st : StateDict) (k : String)
    (h1 : (env.torch_load p.toStr "cuda:0").cfg = some ce)
    (h2 : ce.model = some cfg)
    (h3 : (env.torch_load p.toStr "cuda:0").model = some st)
    (hmem : k ∈ sdKeys (env.esmfold_init cfg)) (habs : k ∉ sdKeys st)
    (hsub : pyIn "esm." k = true) (hpre : startswith k "esm." = false) :
    ∃ msg, (_load_model env p).fst = Except.error (PyError.runtimeError msg) := by
  rw [load_model_unfold env p ce cfg st h1 h2 h3]
  have hk : k ∈ missing_essential_keys (sdKeys (env.esmfold_init cfg))
      (sdKeys st) := mem_missing_essential_keys.2 ⟨hmem, habs, hpre⟩
  have hne : ¬ ((missing_essential_keys (sdKeys (env.esmfold_init cfg))
      (sdKeys st)).isEmpty = true) := by
    intro hq
    rw [List.isEmpty_iff.1 hq] at hk
    cases hk
  rw [if_neg hne]
  exact ⟨_, rfl⟩

/-- C8 witness: the missing key "trunk.esm.weight" contains "esm." away
from position 0 and still triggers the error. -/
theorem C8_witness :
    ∃ msg, (_load_model envTrunk path0).fst =
      Except.error (PyError.runtimeError msg) :=
  C8_inner_esm_still_essential envTrunk path0 { model := some 0 } 0 []
    "trunk.esm.weight" rfl rfl rfl (by decide) (by decide) rfl rfl

/-- C9: on a plain string argument both selectors fail with the
AttributeError for `as_posix` instead of returning nothing or a model,
since only Path objects expose that method. -/
theorem C9_str_argument_raises (env : Env) (s : String) :
    esmfold_v0 env (PathArg.ofStr s) =
      (Except.error (PyError.attributeError "as_posix"), []) ∧
    esmfold_v1 env (PathArg.ofStr s) =
      (Except.error (PyError.attributeError "as_posix"), []) :=
  ⟨rfl, rfl⟩

/-- C10: when the checkpoint lacks the top-level "cfg" field, its nested
"model" entry, or the top-level "model" field, `_load_model` fails with a
KeyError — an error kind distinct from the RuntimeError configuration
error — before the missing-key validation. -/
theorem C10_missing_field_key_error (env : Env) (p : PyPath)
    (h : (env.torch_load p.toStr "cuda:0").cfg = none ∨
      (∃ ce, (env.torch_load p.toStr "cuda:0").cfg = some ce ∧
        ce.model = none) ∨
      (env.torch_load p.toStr "cuda:0").model = none) :
    ∃ k, (_load_model env p).fst = Except.error (PyError.keyError k) ∧
      ∀ msg, PyError.keyError k ≠ PyError.runtimeError msg := by
  simp only [_load_model]
  rcases h with h | ⟨ce, hce, hm⟩ | h
  · rw [h]
    exact ⟨"cfg", rfl, fun msg hq => PyError.noConfusion hq⟩
  · rw [hce]
    dsimp only
    rw [hm]
    exact ⟨"model", rfl, fun msg hq => PyError.noConfusion hq⟩
  · cases hc : (env.torch_load p.toStr "cuda:0").cfg with
    | none => exact ⟨"cfg", rfl, fun msg hq => PyError.noConfusion hq⟩
    | some ce =>
      dsimp only
      cases hm : ce.model with
      | none => exact ⟨"model", rfl, fun msg hq => PyError.noConfusion hq⟩
      | some cfg =>
        dsimp only
        rw [h]
        exact ⟨"model", rfl, fun msg hq => PyError.noConfusion hq⟩

/-- C10 witness: the checkpoint lacking "cfg" produces a KeyError. -/
theorem C10_witness :
    ∃ k, (_load_model envNoCfg path0).fst =
      Except.error (PyError.keyError k) ∧
      ∀ msg, PyError.keyError k ≠ PyError.runtimeError msg :=
  C10_missing_field_key_error envNoCfg path0 (Or.inl rfl)

end EsmPretrained
